import Mathlib

set_option maxRecDepth 2048

/-!
Shallow embedding of `publish/src/command-utils/owner-actions.js`: signer-kind
routing, pending-transaction listing, duplicate detection and submission of
ownership-transfer transactions for three signer kinds (Safe-coordinated
multisig, legacy on-chain multisig, direct single-key wallet).

The collaborators imported from `safe-utils.js`, `multisig-utils.js` and
`ui-utils.js` are not part of the source tree here; where a claim depends on
one of them, it is modelled from the specification (each such definition's doc
comment starts with "Modelled from the spec:"). Network calls are embedded as
explicit effect values, and `process.exit` on an unusable Safe nonce is
embedded as a `backendUnreachable` error result.
-/

/-- Signer-kind discriminant table, from the source: `safe` maps to the string
SAFE, `legacy` to LEGACY and `eoa` to EAO (sic, the source spells the direct
wallet kind EAO). -/
structure KindTable where
  safe : String
  legacy : String
  eoa : String
deriving DecidableEq

/-- The source's `KIND` constant. -/
def KIND : KindTable :=
  { safe := "SAFE", legacy := "LEGACY", eoa := "EAO" }

/-- A transaction staged with the Safe coordination service: destination
address, encoded call data and its sequence number (nonce). -/
structure SafeTx where
  toAddr : String
  data : String
  nonce : Nat
deriving DecidableEq

/-- A transaction recorded by the legacy multisig contract, which tracks its
own pending/executed state on chain. -/
structure MultisigTx where
  destination : String
  data : String
  executed : Bool
deriving DecidableEq

/-- Binding to the legacy multisig contract: its address and its on-chain
transaction list (the contract is the source of truth for pending state). -/
structure MultisigContract where
  address : String := ""
  transactions : List MultisigTx := []
deriving DecidableEq, Inhabited

/-- Binding to the Safe proxy contract. -/
structure SafeContract where
  address : String := ""
deriving DecidableEq, Inhabited

/-- The `signerData` object built by `getSignerData`; fields that a given kind
never assigns stay `none`, mirroring the JavaScript object on which they are
undefined. -/
structure SignerData where
  protocolDaoContract : Option SafeContract := none
  currentSafeNonce : Option Nat := none
  multisigContract : Option MultisigContract := none
  lastNonce : Option Nat := none
  stagedTransactions : Option (List SafeTx) := none
deriving DecidableEq, Inhabited

/-- A JavaScript numeric argument that may be undefined; `truthy` mirrors the
JavaScript truthiness test the source applies to `gasLimit` (undefined and 0
are falsy, every other number truthy). -/
inductive JsNum where
  | undefined
  | num (n : Nat)
deriving DecidableEq

/-- JavaScript truthiness of a possibly-undefined number. -/
def JsNum.truthy : JsNum → Bool
  | .undefined => false
  | .num n => n != 0

/-- Numeric value, 0 standing for undefined (only read when truthy). -/
def JsNum.toNat : JsNum → Nat
  | .undefined => 0
  | .num n => n

/-- Error taxonomy of the specification that this source can raise at handle
construction: the source prints a notice and calls `process.exit`, which the
spec names `BackendUnreachable`. -/
inductive OwnerActionError where
  | backendUnreachable
deriving DecidableEq

/-- Parameters of a plain transaction built on the direct execution path. -/
structure TxParams where
  toAddr : String
  gasPrice : Nat
  data : String
  gasLimit : Option Nat := none
deriving DecidableEq

/-- A confirmation receipt: mined directly from the wallet, or mined by the
legacy multisig submission helper. -/
inductive Receipt where
  | mined (p : TxParams)
  | multisigMined (toAddr data : String)
deriving DecidableEq

/-- Observable effects of the operations: nonce fetch, hash computation,
signing, staging to the coordination API, on-chain submissions, receipt wait
and receipt logging. -/
inductive Effect where
  | fetchSafeNonce
  | getNewTxHash (toAddr data sender : String) (nonce : Nat)
  | signHash (h : Nat)
  | saveToApi (toAddr data : String) (nonce txHash sig : Nat)
  | submitMultisig (toAddr data : String)
  | sendTransaction (p : TxParams)
  | waitForReceipt
  | logTx (r : Receipt)
deriving DecidableEq

/-- An effect is a chain-submission primitive when it sends a transaction from
the wallet, submits through the multisig contract, or waits for an on-chain
receipt. -/
def Effect.isChainSubmission : Effect → Bool
  | .submitMultisig _ _ => true
  | .sendTransaction _ => true
  | .waitForReceipt => true
  | _ => false

/-- External collaborators supplied to a session: the value the Safe nonce
query resolves to, the coordination-service listing (network and Safe address
to staged transactions) and the legacy multisig contract state reachable at
the supplied address. -/
structure ChainEnv where
  safeNonce : Option Nat := none
  safeApi : String → String → List SafeTx := fun _ _ => []
  multisig : MultisigContract := {}

/-- Modelled from the spec: `getSafeInstance` (safe-utils.js, not under src)
connects to the coordinating contract at the address supplied as the new
owner. -/
def getSafeInstance (providerUrl newOwner : String) : SafeContract :=
  { address := newOwner }

/-- Modelled from the spec: `getSafeNonce` (safe-utils.js, not under src)
reads the Safe's current sequence number, here supplied by the environment;
`none` models an empty or undefined response. -/
def getSafeNonce (env : ChainEnv) (c : SafeContract) : Option Nat :=
  env.safeNonce

/-- Modelled from the spec: `getMultisigInstance` (multisig-utils.js, not
under src) connects to the legacy multisig contract at the supplied
address. -/
def getMultisigInstance (env : ChainEnv) (providerUrl newOwner : String) :
    MultisigContract :=
  { env.multisig with address := newOwner }

/-- JavaScript truthiness of the fetched nonce as tested by the source's
`if (!signerData.currentSafeNonce)`: an absent response and a zero value are
both falsy, hence both unusable. -/
def nonceFalsy : Option Nat → Bool
  | none => true
  | some n => n == 0

/-- Embedding of `getSignerData`: builds the per-kind signer handle. For the
Safe kind it fetches the current Safe nonce once and aborts the session with
`backendUnreachable` (the source logs and calls `process.exit`) when the
fetched value is falsy; otherwise the handle carries the contract reference
and the fetched nonce. The legacy kind builds the multisig binding with no
network call; any other kind yields an empty handle. -/
def getSignerData (env : ChainEnv) (signerKind providerUrl newOwner : String) :
    List Effect × Except OwnerActionError SignerData :=
  if signerKind == KIND.safe then
    let contract := getSafeInstance providerUrl newOwner
    let nonce := getSafeNonce env contract
    if nonceFalsy nonce then
      ([Effect.fetchSafeNonce], Except.error OwnerActionError.backendUnreachable)
    else
      ([Effect.fetchSafeNonce],
        Except.ok { protocolDaoContract := some contract, currentSafeNonce := nonce })
  else if signerKind == KIND.legacy then
    ([], Except.ok { multisigContract := some (getMultisigInstance env providerUrl newOwner) })
  else
    ([], Except.ok {})

/-- Modelled from the spec: `getSafeTransactions` (safe-utils.js, not under
src) queries the coordination service for all transactions staged against the
Safe address on the given network and returns them as-is. -/
def getSafeTransactions (env : ChainEnv) (network safeAddress : String) :
    List SafeTx :=
  env.safeApi network safeAddress

/-- Modelled from the spec: `getMultisigTxCount` (multisig-utils.js, not under
src) reads the contract's total transaction count. -/
def getMultisigTxCount (c : MultisigContract) : Nat :=
  c.transactions.length

/-- Modelled from the spec: `getMultisigTransactionIds` (multisig-utils.js,
not under src) lists the transaction identifiers in the range from `frm`
inclusive to `upTo` exclusive whose pending or executed flag matches the
requested filter. -/
def getMultisigTransactionIds (c : MultisigContract) (frm upTo : Nat)
    (pending executed : Bool) : List Nat :=
  (List.range upTo).filter fun i =>
    decide (frm ≤ i) &&
      match c.transactions[i]? with
      | some t => (pending && !t.executed) || (executed && t.executed)
      | none => false

/-- The heterogeneous value `getStagedTransactions` returns: the Safe branch
yields staged transaction records, the legacy branch yields transaction
identifiers. -/
inductive StagedSet where
  | safeTxs (txs : List SafeTx)
  | multisigIds (ids : List Nat)
deriving DecidableEq

/-- Embedding of `getStagedTransactions`: dispatches on signer kind; for the
Safe kind it queries the coordination service, for the legacy kind it reads
the transaction count and lists the pending, not-executed identifiers in the
range from 0 to that count; for every other kind the declared variable is
never assigned, so the source returns it uninitialized — embedded as
`none`. -/
def getStagedTransactions (env : ChainEnv) (signerKind : String)
    (signerData : SignerData) (network : String) : Option StagedSet :=
  if signerKind == KIND.safe then
    some (StagedSet.safeTxs (getSafeTransactions env network
      (signerData.protocolDaoContract.getD default).address))
  else if signerKind == KIND.legacy then
    let c := signerData.multisigContract.getD default
    let lastTx := getMultisigTxCount c
    some (StagedSet.multisigIds (getMultisigTransactionIds c 0 lastTx true false))
  else
    none

/-- Modelled from the spec: `checkExistingPendingTx` (safe-utils.js, not under
src); a candidate is a duplicate iff some staged entry matches destination and
encoded data exactly and carries a nonce at least `currentSafeNonce` (stale
entries with a lower nonce are ignored). -/
def checkExistingPendingTx (stagedTransactions : List SafeTx)
    (target encodedData : String) (currentSafeNonce : Nat) : Bool :=
  stagedTransactions.any fun s =>
    s.toAddr == target && s.data == encodedData && decide (currentSafeNonce ≤ s.nonce)

/-- Modelled from the spec: `checkMultisigExistingPendingTx`
(multisig-utils.js, not under src); with a supplied pending set it matches
destination and data byte-exactly against it, and with no supplied set the
contract binding performs its own pending lookup, matching destination and
data against the contract's not-yet-executed transactions; no sequence-number
tie-break in either case. -/
def checkMultisigExistingPendingTx (multisigContract : MultisigContract)
    (stagedTransactions : Option (List SafeTx))
    (target encodedData : String) : Bool :=
  match stagedTransactions with
  | some l => l.any fun s => s.toAddr == target && s.data == encodedData
  | none => multisigContract.transactions.any fun t =>
      !t.executed && t.destination == target && t.data == encodedData

/-- Embedding of `txAlreadyExists`: the Safe kind delegates to
`checkExistingPendingTx` with the caller's staged set and the handle's
`currentSafeNonce`; the legacy kind delegates to
`checkMultisigExistingPendingTx` with `signerData.stagedTransactions` (a field
`getSignerData` never assigns), bypassing the caller's argument; every other
kind returns false. -/
def txAlreadyExists (signerKind : String) (signerData : SignerData)
    (stagedTransactions : List SafeTx) (target encodedData : String) : Bool :=
  if signerKind == KIND.safe then
    checkExistingPendingTx stagedTransactions target encodedData
      (signerData.currentSafeNonce.getD 0)
  else if signerKind == KIND.legacy then
    checkMultisigExistingPendingTx (signerData.multisigContract.getD default)
      signerData.stagedTransactions target encodedData
  else
    false

/-- Simple injective-enough encoding of a string as a number, standing in for
the byte-level hashing material (no claim depends on hash values). -/
def strCode (s : String) : Nat :=
  s.foldl (fun a c => a * 256 + c.toNat) 1

/-- Cantor pairing of two numbers. -/
def pairCode (a b : Nat) : Nat :=
  (a + b) * (a + b + 1) / 2 + b

/-- Modelled from the spec: the contract transaction hash computed for the
Safe binds destination, data, sender and the sequence number. -/
def safeTxHash (toAddr data sender : String) (nonce : Nat) : Nat :=
  pairCode (pairCode (strCode toAddr) (strCode data))
    (pairCode (strCode sender) nonce)

/-- Modelled from the spec: `getNewTransactionHash` (safe-utils.js, not under
src) derives the next sequence number as the maximum of the handle's tracked
sequence and the last locally used one, plus 1, and returns the contract
transaction hash for it together with that new sequence number. -/
def getNewTransactionHash (trackedSequence : Nat) (lastNonce : Option Nat)
    (toAddr data sender : String) : Nat × Nat :=
  let newNonce := max trackedSequence (lastNonce.getD 0) + 1
  (safeTxHash toAddr data sender newNonce, newNonce)

/-- Modelled from the spec: `getSafeSignature` (safe-utils.js, not under src)
signs the contract transaction hash with the caller's private key. -/
def getSafeSignature (privateKey : String) (contractTxHash : Nat) : Nat :=
  pairCode (strCode privateKey) contractTxHash

/-- Modelled from the spec: `ethers.utils.parseUnits` with the gwei unit
converts the human-readable gas price into base units, 1 gwei being 10^9 wei;
the human-readable amount is embedded as the number it denotes. -/
def parseUnitsGwei (gwei : Nat) : Nat :=
  gwei * 1000000000

/-- Arguments of `acceptOwnershipBySigner`, mirroring the source's single
options object; the wallet is represented by its address. -/
structure AcceptArgs where
  signerKind : String
  signerData : SignerData := {}
  useFork : Bool := false
  network : String := ""
  privateKey : String := ""
  providerUrl : String := ""
  encodedData : String := ""
  toAddr : String := ""
  walletAddress : String := ""
  gasLimit : JsNum := JsNum.undefined
  gasPrice : Nat := 0
deriving DecidableEq

/-- Result of a submission: the effects performed in order, the signer handle
after the call (the Safe branch advances `lastNonce`) and the receipt, `none`
on the Safe staging path which returns without one. -/
structure SubmitResult where
  effects : List Effect
  signerData : SignerData
  receipt : Option Receipt
deriving DecidableEq

/-- Embedding of `acceptOwnershipBySigner`: the Safe kind outside fork mode
computes the contract transaction hash and next sequence number, signs the
hash, saves the staged transaction to the coordination API and advances
`signerData.lastNonce` to the sequence number just used, returning no receipt;
the legacy kind submits through the multisig contract and logs the mined
receipt; every other case (direct wallet kind, Safe kind in fork mode, or any
unrecognized kind) builds a plain transaction with the gas price parsed from
gwei into base units, attaches a gasLimit field only when the supplied value
is truthy, sends it from the wallet, waits for the receipt and logs it. -/
def acceptOwnershipBySigner (a : AcceptArgs) : SubmitResult :=
  if a.signerKind == KIND.safe && !a.useFork then
    let tracked := a.signerData.currentSafeNonce.getD 0
    let hn := getNewTransactionHash tracked a.signerData.lastNonce
      a.toAddr a.encodedData a.walletAddress
    let sig := getSafeSignature a.privateKey hn.1
    { effects := [Effect.getNewTxHash a.toAddr a.encodedData a.walletAddress hn.2,
        Effect.signHash hn.1,
        Effect.saveToApi a.toAddr a.encodedData hn.2 hn.1 sig],
      signerData := { a.signerData with lastNonce := some hn.2 },
      receipt := none }
  else if a.signerKind == KIND.legacy then
    let r := Receipt.multisigMined a.toAddr a.encodedData
    { effects := [Effect.submitMultisig a.toAddr a.encodedData, Effect.logTx r],
      signerData := a.signerData,
      receipt := some r }
  else
    let params : TxParams :=
      { toAddr := a.toAddr,
        gasPrice := parseUnitsGwei a.gasPrice,
        data := a.encodedData,
        gasLimit := if a.gasLimit.truthy then some a.gasLimit.toNat else none }
    let r := Receipt.mined params
    { effects := [Effect.sendTransaction params, Effect.waitForReceipt, Effect.logTx r],
      signerData := a.signerData,
      receipt := some r }

/-- The sequence number a submission sent to the coordination API, read off
its saveToApi effect. -/
def usedNonce (r : SubmitResult) : Option Nat :=
  r.effects.findSome? fun e =>
    match e with
    | Effect.saveToApi _ _ n _ _ => some n
    | _ => none

/-- C1: for the Coordinated (Safe) signer kind, `txAlreadyExists` returns true
iff some entry of the supplied pending set matches both the candidate's
destination and encoded call data exactly and that entry's sequence number is
at least the handle's tracked sequence number; matching entries whose sequence
number is strictly below it are ignored. -/
theorem safe_txAlreadyExists_iff (sd : SignerData) (staged : List SafeTx)
    (target encodedData : String) (c : Nat)
    (h : sd.currentSafeNonce = some c) :
    txAlreadyExists KIND.safe sd staged target encodedData = true ↔
      ∃ s ∈ staged, s.toAddr = target ∧ s.data = encodedData ∧ c ≤ s.nonce := by
  simp [txAlreadyExists, checkExistingPendingTx, h, List.any_eq_true,
    Bool.and_eq_true, beq_iff_eq, decide_eq_true_eq, and_assoc]

/-- C1 witness: a pending entry matching destination and data with nonce 5 at
tracked sequence 3 is reported as a duplicate. -/
theorem safe_txAlreadyExists_iff_witness :
    txAlreadyExists KIND.safe { currentSafeNonce := some 3 }
        [{ toAddr := "0xA", data := "0xdead", nonce := 5 }] "0xA" "0xdead" = true ↔
      ∃ s ∈ [({ toAddr := "0xA", data := "0xdead", nonce := 5 } : SafeTx)],
        s.toAddr = "0xA" ∧ s.data = "0xdead" ∧ 3 ≤ s.nonce :=
  safe_txAlreadyExists_iff { currentSafeNonce := some 3 }
    [{ toAddr := "0xA", data := "0xdead", nonce := 5 }] "0xA" "0xdead" 3 rfl

/-- C6: for the direct single-wallet kind, `txAlreadyExists` returns false for
every handle, pending set, destination and encoded data. -/
theorem direct_txAlreadyExists_false (sd : SignerData) (staged : List SafeTx)
    (target encodedData : String) :
    txAlreadyExists KIND.eoa sd staged target encodedData = false := by
  rfl

/-- C8: for the legacy kind the result of `txAlreadyExists` is determined
solely by the contract binding's own pending lookup on the byte-exact
destination and data pair: the caller's stagedTransactions argument is
bypassed (any two such arguments give the same result), and no sequence-number
tie-break is applied. -/
theorem legacy_txAlreadyExists_bypasses_argument (sd : SignerData)
    (c : MultisigContract) (s1 s2 : List SafeTx) (target encodedData : String)
    (hc : sd.multisigContract = some c) (hs : sd.stagedTransactions = none) :
    txAlreadyExists KIND.legacy sd s1 target encodedData =
        txAlreadyExists KIND.legacy sd s2 target encodedData ∧
      txAlreadyExists KIND.legacy sd s1 target encodedData =
        c.transactions.any fun t =>
          !t.executed && t.destination == target && t.data == encodedData := by
  refine ⟨rfl, ?_⟩
  have h1 : (KIND.legacy == KIND.safe) = false := by decide
  have h2 : (KIND.legacy == KIND.legacy) = true := by decide
  simp [txAlreadyExists, checkMultisigExistingPendingTx, h1, h2, hc, hs]

/-- C8 witness: with a contract holding one pending matching transaction, the
legacy check succeeds regardless of the caller's argument. -/
theorem legacy_txAlreadyExists_bypasses_argument_witness :
    txAlreadyExists KIND.legacy
          { multisigContract := some
              { address := "0xM",
                transactions := [{ destination := "0xB", data := "0xbeef", executed := false }] } }
          [] "0xB" "0xbeef" =
        txAlreadyExists KIND.legacy
          { multisigContract := some
              { address := "0xM",
                transactions := [{ destination := "0xB", data := "0xbeef", executed := false }] } }
          [{ toAddr := "0xZ", data := "0x00", nonce := 0 }] "0xB" "0xbeef" ∧
      txAlreadyExists KIND.legacy
          { multisigContract := some
              { address := "0xM",
                transactions := [{ destination := "0xB", data := "0xbeef", executed := false }] } }
          [] "0xB" "0xbeef" =
        List.any ([{ destination := "0xB", data := "0xbeef", executed := false }] : List MultisigTx) fun t =>
          !t.executed && t.destination == "0xB" && t.data == "0xbeef" :=
  legacy_txAlreadyExists_bypasses_argument
    { multisigContract := some
        { address := "0xM",
          transactions := [{ destination := "0xB", data := "0xbeef", executed := false }] } }
    { address := "0xM",
      transactions := [{ destination := "0xB", data := "0xbeef", executed := false }] }
    [] [{ toAddr := "0xZ", data := "0x00", nonce := 0 }] "0xB" "0xbeef" rfl rfl

/-- C10: the Safe-kind duplicate check reads only the sequence number fetched
at handle construction (currentSafeNonce) and never the locally advanced
lastNonce: two handles agreeing on currentSafeNonce give the same result for
every pending set and candidate, whatever their lastNonce fields hold. -/
theorem safe_txAlreadyExists_ignores_lastNonce (sd1 sd2 : SignerData)
    (staged : List SafeTx) (target encodedData : String)
    (h : sd1.currentSafeNonce = sd2.currentSafeNonce) :
    txAlreadyExists KIND.safe sd1 staged target encodedData =
      txAlreadyExists KIND.safe sd2 staged target encodedData := by
  simp [txAlreadyExists, h]

/-- C10 witness: a handle before any submission and the same handle with
lastNonce advanced to 99 agree on the duplicate check. -/
theorem safe_txAlreadyExists_ignores_lastNonce_witness :
    txAlreadyExists KIND.safe { currentSafeNonce := some 2, lastNonce := none }
        [{ toAddr := "0xA", data := "0xdead", nonce := 2 }] "0xA" "0xdead" =
      txAlreadyExists KIND.safe { currentSafeNonce := some 2, lastNonce := some 99 }
        [{ toAddr := "0xA", data := "0xdead", nonce := 2 }] "0xA" "0xdead" :=
  safe_txAlreadyExists_ignores_lastNonce
    { currentSafeNonce := some 2, lastNonce := none }
    { currentSafeNonce := some 2, lastNonce := some 99 }
    [{ toAddr := "0xA", data := "0xdead", nonce := 2 }] "0xA" "0xdead" rfl

/-- C5: building the Safe handle fetches the Safe sequence number exactly once
(no retry), fails with backendUnreachable exactly when the fetched value is
unusable (absent or zero), and for a usable value returns a handle carrying
the contract reference at the supplied new-owner address together with that
sequence number. -/
theorem safe_getSignerData_spec (env : ChainEnv) (providerUrl newOwner : String) :
    (getSignerData env KIND.safe providerUrl newOwner).1 = [Effect.fetchSafeNonce] ∧
      ((getSignerData env KIND.safe providerUrl newOwner).2 =
          Except.error OwnerActionError.backendUnreachable ↔
        nonceFalsy env.safeNonce = true) ∧
      (nonceFalsy env.safeNonce = false →
        (getSignerData env KIND.safe providerUrl newOwner).2 =
          Except.ok
            { protocolDaoContract := some { address := newOwner },
              currentSafeNonce := env.safeNonce }) := by
  by_cases hf : nonceFalsy env.safeNonce = true
  · simp [getSignerData, getSafeInstance, getSafeNonce, hf]
  · rw [Bool.not_eq_true] at hf
    simp [getSignerData, getSafeInstance, getSafeNonce, hf]

/-- C5 witness: a usable fetched sequence number 7 yields one fetch and a
handle holding the contract at the supplied address and nonce 7. -/
theorem safe_getSignerData_spec_witness :
    (getSignerData { safeNonce := some 7 } KIND.safe "http:rpc" "0xSAFE").1 =
        [Effect.fetchSafeNonce] ∧
      ((getSignerData { safeNonce := some 7 } KIND.safe "http:rpc" "0xSAFE").2 =
          Except.error OwnerActionError.backendUnreachable ↔
        nonceFalsy (ChainEnv.safeNonce { safeNonce := some 7 }) = true) ∧
      (nonceFalsy (ChainEnv.safeNonce { safeNonce := some 7 }) = false →
        (getSignerData { safeNonce := some 7 } KIND.safe "http:rpc" "0xSAFE").2 =
          Except.ok
            { protocolDaoContract := some { address := "0xSAFE" },
              currentSafeNonce := ChainEnv.safeNonce { safeNonce := some 7 } }) :=
  safe_getSignerData_spec { safeNonce := some 7 } "http:rpc" "0xSAFE"

/-- C7 counterexample: for the direct kind the pending-transaction lister
returns the absent value (the source's uninitialized variable, embedded as
none), which is not the present empty staged set. -/
theorem direct_getStagedTransactions_cex :
    getStagedTransactions {} KIND.eoa {} "mainnet" = none ∧
      (none : Option StagedSet) ≠ some (StagedSet.safeTxs []) :=
  ⟨rfl, by simp⟩

/-- C7 amended: for the direct kind `getStagedTransactions` returns the absent
(undefined) value none for every environment, handle and network input, never
a present empty set. -/
theorem direct_getStagedTransactions_none (env : ChainEnv) (sd : SignerData)
    (network : String) :
    getStagedTransactions env KIND.eoa sd network = none := by
  rfl

/-- C4: for the Safe kind outside fork mode, submission performs no
chain-submission effect (no wallet send, no multisig submit, no receipt
wait), returns no receipt (a staged acknowledgement only), and its effects
are exactly computing the contract transaction hash, signing it and saving
the staged transaction to the coordination API. -/
theorem safe_submit_stages_only (a : AcceptArgs)
    (hk : a.signerKind = KIND.safe) (hf : a.useFork = false) :
    (acceptOwnershipBySigner a).receipt = none ∧
      (∀ e ∈ (acceptOwnershipBySigner a).effects, e.isChainSubmission = false) ∧
      ∃ h n s, (acceptOwnershipBySigner a).effects =
        [Effect.getNewTxHash a.toAddr a.encodedData a.walletAddress n,
          Effect.signHash h, Effect.saveToApi a.toAddr a.encodedData n h s] := by
  have hc : (a.signerKind == KIND.safe && !a.useFork) = true := by
    rw [hk, hf]; rfl
  refine ⟨?_, ?_, ?_⟩
  · simp [acceptOwnershipBySigner, hc]
  · simp [acceptOwnershipBySigner, hc, Effect.isChainSubmission]
  · exact ⟨(getNewTransactionHash (a.signerData.currentSafeNonce.getD 0)
        a.signerData.lastNonce a.toAddr a.encodedData a.walletAddress).1,
      (getNewTransactionHash (a.signerData.currentSafeNonce.getD 0)
        a.signerData.lastNonce a.toAddr a.encodedData a.walletAddress).2,
      getSafeSignature a.privateKey (getNewTransactionHash
        (a.signerData.currentSafeNonce.getD 0) a.signerData.lastNonce
        a.toAddr a.encodedData a.walletAddress).1,
      by simp [acceptOwnershipBySigner, hc]⟩

/-- C4 witness: a concrete Safe staging run yields no receipt, no
chain-submission effect and exactly the hash, sign and save effects. -/
theorem safe_submit_stages_only_witness :
    (acceptOwnershipBySigner { signerKind := "SAFE", signerData := { currentSafeNonce := some 3 }, toAddr := "0xT", encodedData := "0xd", walletAddress := "0xW", privateKey := "pk" }).receipt = none ∧
      (∀ e ∈ (acceptOwnershipBySigner { signerKind := "SAFE", signerData := { currentSafeNonce := some 3 }, toAddr := "0xT", encodedData := "0xd", walletAddress := "0xW", privateKey := "pk" }).effects, e.isChainSubmission = false) ∧
      ∃ h n s, (acceptOwnershipBySigner { signerKind := "SAFE", signerData := { currentSafeNonce := some 3 }, toAddr := "0xT", encodedData := "0xd", walletAddress := "0xW", privateKey := "pk" }).effects =
        [Effect.getNewTxHash "0xT" "0xd" "0xW" n,
          Effect.signHash h, Effect.saveToApi "0xT" "0xd" n h s] :=
  safe_submit_stages_only { signerKind := "SAFE", signerData := { currentSafeNonce := some 3 }, toAddr := "0xT", encodedData := "0xd", walletAddress := "0xW", privateKey := "pk" } rfl rfl

/-- C2: for the Safe kind outside fork mode every successful submission
advances signerData.lastNonce to exactly the sequence number sent to the
coordination API, that number strictly exceeds the handle's previous
lastNonce, and a second submission chained on the returned handle uses a
strictly larger sequence number, so lastNonce is monotonically
non-decreasing. -/
theorem safe_submit_nonce_increases (a b : AcceptArgs)
    (hka : a.signerKind = KIND.safe) (hfa : a.useFork = false)
    (hkb : b.signerKind = KIND.safe) (hfb : b.useFork = false)
    (hlink : b.signerData = (acceptOwnershipBySigner a).signerData) :
    ∃ n1 n2,
      usedNonce (acceptOwnershipBySigner a) = some n1 ∧
      (acceptOwnershipBySigner a).signerData.lastNonce = some n1 ∧
      usedNonce (acceptOwnershipBySigner b) = some n2 ∧
      (acceptOwnershipBySigner b).signerData.lastNonce = some n2 ∧
      a.signerData.lastNonce.getD 0 < n1 ∧ n1 < n2 := by
  have hca : (a.signerKind == KIND.safe && !a.useFork) = true := by
    rw [hka, hfa]; rfl
  have hcb : (b.signerKind == KIND.safe && !b.useFork) = true := by
    rw [hkb, hfb]; rfl
  refine ⟨max (a.signerData.currentSafeNonce.getD 0) (a.signerData.lastNonce.getD 0) + 1,
    max (a.signerData.currentSafeNonce.getD 0)
      (max (a.signerData.currentSafeNonce.getD 0) (a.signerData.lastNonce.getD 0) + 1) + 1,
    ?_, ?_, ?_, ?_, ?_, ?_⟩
  · simp [acceptOwnershipBySigner, hca, usedNonce, getNewTransactionHash]
  · simp [acceptOwnershipBySigner, hca, getNewTransactionHash]
  · simp [acceptOwnershipBySigner, hca, hcb, hlink, usedNonce, getNewTransactionHash]
  · simp [acceptOwnershipBySigner, hca, hcb, hlink, getNewTransactionHash]
  · omega
  · omega

/-- C2 witness: starting from fetched sequence 3, the first submission uses
and records sequence 4 and the chained second submission uses and records
sequence 5. -/
theorem safe_submit_nonce_increases_witness :
    ∃ n1 n2,
      usedNonce (acceptOwnershipBySigner { signerKind := "SAFE", signerData := { currentSafeNonce := some 3 } }) = some n1 ∧
      (acceptOwnershipBySigner { signerKind := "SAFE", signerData := { currentSafeNonce := some 3 } }).signerData.lastNonce = some n1 ∧
      usedNonce (acceptOwnershipBySigner { signerKind := "SAFE", signerData := (acceptOwnershipBySigner { signerKind := "SAFE", signerData := { currentSafeNonce := some 3 } }).signerData }) = some n2 ∧
      (acceptOwnershipBySigner { signerKind := "SAFE", signerData := (acceptOwnershipBySigner { signerKind := "SAFE", signerData := { currentSafeNonce := some 3 } }).signerData }).signerData.lastNonce = some n2 ∧
      (AcceptArgs.signerData { signerKind := "SAFE", signerData := { currentSafeNonce := some 3 } }).lastNonce.getD 0 < n1 ∧
      n1 < n2 :=
  safe_submit_nonce_increases { signerKind := "SAFE", signerData := { currentSafeNonce := some 3 } } { signerKind := "SAFE", signerData := (acceptOwnershipBySigner { signerKind := "SAFE", signerData := { currentSafeNonce := some 3 } }).signerData } rfl rfl rfl rfl rfl

/-- C3 counterexample: an unrecognized signer kind does not fail; submission
silently falls through to the direct wallet execution path, sending a plain
transaction and returning its mined receipt. -/
theorem unknown_kind_falls_through_cex :
    (acceptOwnershipBySigner { signerKind := "MULTISIG-V3", toAddr := "0xT", encodedData := "0xdata", gasPrice := 20 }).effects =
      [Effect.sendTransaction { toAddr := "0xT", gasPrice := 20000000000, data := "0xdata" },
        Effect.waitForReceipt,
        Effect.logTx (Receipt.mined { toAddr := "0xT", gasPrice := 20000000000, data := "0xdata" })] ∧
      (acceptOwnershipBySigner { signerKind := "MULTISIG-V3", toAddr := "0xT", encodedData := "0xdata", gasPrice := 20 }).receipt =
        some (Receipt.mined { toAddr := "0xT", gasPrice := 20000000000, data := "0xdata" }) :=
  ⟨rfl, rfl⟩

/-- C3 amended: for every signer kind outside the three-entry KIND table,
submission does not fail with an unsupported-kind error; it behaves exactly
as the direct wallet kind (the source's implicit else branch). -/
theorem unknown_kind_behaves_as_direct (a : AcceptArgs)
    (h1 : a.signerKind ≠ KIND.safe) (h2 : a.signerKind ≠ KIND.legacy) :
    acceptOwnershipBySigner a =
      acceptOwnershipBySigner { a with signerKind := KIND.eoa } := by
  have hb1 : (a.signerKind == KIND.safe) = false := beq_eq_false_iff_ne.mpr h1
  have hb2 : (a.signerKind == KIND.legacy) = false := beq_eq_false_iff_ne.mpr h2
  have he1 : (KIND.eoa == KIND.safe) = false := by decide
  have he2 : (KIND.eoa == KIND.legacy) = false := by decide
  simp [acceptOwnershipBySigner, hb1, hb2, he1, he2]

/-- C3 witness: the unrecognized kind MULTISIG-V3 submits exactly as the
direct wallet kind EAO would. -/
theorem unknown_kind_behaves_as_direct_witness :
    acceptOwnershipBySigner { signerKind := "MULTISIG-V3", toAddr := "0xT", encodedData := "0xdata", gasPrice := 20 } =
      acceptOwnershipBySigner { ({ signerKind := "MULTISIG-V3", toAddr := "0xT", encodedData := "0xdata", gasPrice := 20 } : AcceptArgs) with signerKind := KIND.eoa } :=
  unknown_kind_behaves_as_direct { signerKind := "MULTISIG-V3", toAddr := "0xT", encodedData := "0xdata", gasPrice := 20 } (by decide) (by decide)

/-- C9 amended: on the direct execution path (direct wallet kind, or Safe
kind in fork mode) the transaction is built with the gas price converted from
gwei into base units, the gasLimit field is attached iff the supplied gas
limit is truthy (present and nonzero; a supplied 0 is treated like an absent
one), and the transaction is sent from the wallet, awaited, returned as a
mined receipt and logged. -/
theorem direct_submit_builds_and_sends (a : AcceptArgs)
    (hk : a.signerKind = KIND.eoa ∨ (a.signerKind = KIND.safe ∧ a.useFork = true)) :
    ∃ p : TxParams,
      (acceptOwnershipBySigner a).effects =
          [Effect.sendTransaction p, Effect.waitForReceipt,
            Effect.logTx (Receipt.mined p)] ∧
        (acceptOwnershipBySigner a).receipt = some (Receipt.mined p) ∧
        p.toAddr = a.toAddr ∧ p.data = a.encodedData ∧
        p.gasPrice = a.gasPrice * 1000000000 ∧
        (p.gasLimit = none ↔ a.gasLimit.truthy = false) ∧
        (∀ g, a.gasLimit = JsNum.num g → g ≠ 0 → p.gasLimit = some g) := by
  have hc1 : (a.signerKind == KIND.safe && !a.useFork) = false := by
    rcases hk with h | ⟨h1, h2⟩
    · rw [h]; rfl
    · rw [h1, h2]; rfl
  have hc2 : (a.signerKind == KIND.legacy) = false := by
    rcases hk with h | ⟨h1, h2⟩
    · rw [h]; rfl
    · rw [h1]; rfl
  refine ⟨{ toAddr := a.toAddr, gasPrice := parseUnitsGwei a.gasPrice, data := a.encodedData, gasLimit := if a.gasLimit.truthy then some a.gasLimit.toNat else none },
    ?_, ?_, rfl, rfl, ?_, ?_, ?_⟩
  · simp [acceptOwnershipBySigner, hc1, hc2]
  · simp [acceptOwnershipBySigner, hc1, hc2]
  · simp [parseUnitsGwei]
  · cases ht : a.gasLimit.truthy <;> simp [ht]
  · intro g hg hne
    have hgt : JsNum.truthy (JsNum.num g) = true := by
      simpa [JsNum.truthy] using hne
    rw [hg]
    simp [hgt, JsNum.toNat]

/-- C9 witness: with kind EAO, gas price 20 gwei and gas limit 500000 the
transaction carries gas price 20 * 10^9 base units and the supplied gas
limit, is sent, awaited, logged and returned as a mined receipt. -/
theorem direct_submit_builds_and_sends_witness :
    ∃ p : TxParams,
      (acceptOwnershipBySigner { signerKind := "EAO", toAddr := "0xT", encodedData := "0xd", gasPrice := 20, gasLimit := JsNum.num 500000 }).effects =
          [Effect.sendTransaction p, Effect.waitForReceipt,
            Effect.logTx (Receipt.mined p)] ∧
        (acceptOwnershipBySigner { signerKind := "EAO", toAddr := "0xT", encodedData := "0xd", gasPrice := 20, gasLimit := JsNum.num 500000 }).receipt = some (Receipt.mined p) ∧
        p.toAddr = "0xT" ∧ p.data = "0xd" ∧
        p.gasPrice = AcceptArgs.gasPrice { signerKind := "EAO", toAddr := "0xT", encodedData := "0xd", gasPrice := 20, gasLimit := JsNum.num 500000 } * 1000000000 ∧
        (p.gasLimit = none ↔ JsNum.truthy (JsNum.num 500000) = false) ∧
        (∀ g, JsNum.num 500000 = JsNum.num g → g ≠ 0 → p.gasLimit = some g) :=
  direct_submit_builds_and_sends { signerKind := "EAO", toAddr := "0xT", encodedData := "0xd", gasPrice := 20, gasLimit := JsNum.num 500000 } (Or.inl rfl)

/-- C9 counterexample: a gas limit explicitly supplied as 0 is falsy in the
source's truthiness test, so the built transaction carries no gasLimit field
even though a gas limit was provided. -/
theorem direct_submit_zero_gasLimit_cex :
    JsNum.num 0 ≠ JsNum.undefined ∧
      (acceptOwnershipBySigner { signerKind := "EAO", toAddr := "0xT", encodedData := "0xd", gasPrice := 20, gasLimit := JsNum.num 0 }).effects =
        [Effect.sendTransaction { toAddr := "0xT", gasPrice := 20000000000, data := "0xd", gasLimit := none },
          Effect.waitForReceipt,
          Effect.logTx (Receipt.mined { toAddr := "0xT", gasPrice := 20000000000, data := "0xd", gasLimit := none })] :=
  ⟨by decide, rfl⟩
